import Mathlib

/-
Verification of the AstroPsyche single-page client (ajmalifthii/astro).

Shallow embedding: the relevant functions of the TypeScript sources are
translated into Lean definitions. JS numbers appearing in the embedded
arithmetic are modelled as ℚ or Int (the values involved stay far from
float-precision boundaries), JS strings as Lean String or List Char, and
each awaited backend call by a parameter carrying that call's outcome.
-/

/-! ## Camera path sequencing (App.tsx, ThreeBackground) -/

/-- The fixed 9-element camera choreography list from App.tsx lines 246-256:
-1 is the default wide view, 0-4 are the five planets. -/
def planetSequence : List Int := [-1, 0, 1, 2, 3, 4, 0, 1, 2]

/-- The target-index selection from App.tsx lines 258-266. JS indexing out of
range yields undefined, and the nullish-coalescing default is -1; `List.getD`
with default -1 models `planetSequence[i] ?? -1`. -/
def cameraTargetIndex (appStep formStep : Nat) : Int :=
  if appStep = 1 then planetSequence.getD (1 + formStep) (-1)
  else if appStep > 1 then planetSequence.getD (5 + appStep - 1) (-1)
  else planetSequence.getD appStep (-1)

/-! ## Connection health check (lib/supabase.ts) -/

/-- Outcome of the probe query `supabase.from('users').select('count').limit(1)`:
the awaited call either throws, or completes with an optional error value in
its result object. -/
inductive ProbeOutcome where
  | thrown : ProbeOutcome
  | completed : Option String → ProbeOutcome
deriving DecidableEq

/-- checkSupabaseConnection from src/lib/supabase.ts lines 140-147: return
`!error`, and return false from the catch-all handler. -/
def checkSupabaseConnection : ProbeOutcome → Bool
  | .thrown => false
  | .completed err => !err.isSome

/-! ## Age calculation (App.tsx calculateAge; astrologyService.ts) -/

/-- A calendar date as the JS Date accessors expose it: getFullYear,
getMonth (0-based month) and getDate (day of month). -/
structure JsDate where
  year : Int
  month : Int
  day : Int
deriving DecidableEq

/-- calculateAge from App.tsx lines 307-318; the identical arithmetic appears
in generateAstrologyReport (astrologyService.ts lines 143-150). Returns the
(years, months) pair. -/
def calculateAge (birth today : JsDate) : Int × Int :=
  let years := today.year - birth.year
  let months := today.month - birth.month
  if months < 0 ∨ (months = 0 ∧ today.day < birth.day) then
    (years - 1, months + 12)
  else
    (years, months)

/-! ## The two animation timers (App.tsx BirthDataPage) -/

/-- The age-display auto-advance from App.tsx lines 417-424: when the wizard
is on form step 3 a 2500 ms timer advancing to the next form step is
scheduled, and on any other step none is. Returns the delay paired with the
form step the timer sets. -/
def ageStepTimer (formStep : Nat) : Option (Nat × Nat) :=
  if formStep = 3 then some (2500, formStep + 1) else none

/-- What handleSubmit (App.tsx lines 437-449) schedules: the loading flag
goes up immediately, and a single timer later stops the loading animation and
calls onNext (nextAppStep: appStep + 1 with formStep reset to 0). -/
structure SubmitSchedule where
  loading : Bool
  delay : Nat
  nextAppStep : Nat
  nextFormStep : Nat
deriving DecidableEq

/-- handleSubmit from App.tsx lines 437-449. -/
def handleSubmit (appStep : Nat) : SubmitSchedule :=
  { loading := true, delay := 3000, nextAppStep := appStep + 1, nextFormStep := 0 }

/-! ## Mock astrology calculation (services/astrologyService.ts) -/

/-- The BirthData interface from astrologyService.ts lines 3-11; JS numbers
modelled as ℚ. -/
structure BirthData where
  name : String
  birthDate : String
  birthTime : Option String
  birthPlace : String
  latitude : ℚ
  longitude : ℚ
  timezone : Option String
deriving DecidableEq

/-- The zodiac sign list from astrologyService.ts lines 57-60. -/
def signs : List String :=
  ["Aries", "Taurus", "Gemini", "Cancer", "Leo", "Virgo",
   "Libra", "Scorpio", "Sagittarius", "Capricorn", "Aquarius", "Pisces"]

/-- The planet list from astrologyService.ts line 62. -/
def planetNames : List String :=
  ["Mercury", "Venus", "Mars", "Jupiter", "Saturn", "Uranus", "Neptune", "Pluto"]

/-- JS `%` on integers: the remainder truncated toward zero, carrying the
sign of the dividend. -/
def jsMod (a b : Int) : Int := Int.tmod a b

/-- Math.floor on the modelled numbers. -/
def jsFloor (q : ℚ) : Int := ⌊q⌋

/-- JS array indexing `l[i]`: undefined (none) for any index outside
0..length-1, in particular for every negative index. -/
def jsIndex (l : List String) (i : Int) : Option String :=
  if 0 ≤ i then l.get? i.toNat else none

/-- sunSignIndex from astrologyService.ts line 69:
`Math.floor((dayOfYear - 80) / 30.4) % 12`. With JS `%` this is negative for
dayOfYear < 80 (values -3..-1); only the sun lookup at line 70 corrects the
negative case. -/
def sunSignIndex (dayOfYear : Int) : Int :=
  jsMod (jsFloor (((dayOfYear : ℚ) - 80) / (152/5))) 12

/-- moonSignIndex from astrologyService.ts line 73:
`(sunSignIndex + Math.floor(dayOfYear / 2.5)) % 12`, using the uncorrected
sunSignIndex. -/
def moonSignIndex (dayOfYear : Int) : Int :=
  jsMod (sunSignIndex dayOfYear + jsFloor ((dayOfYear : ℚ) / (5/2))) 12

/-- risingSignIndex from astrologyService.ts line 74:
`(sunSignIndex + Math.floor(dayOfYear / 15)) % 12`, using the uncorrected
sunSignIndex. -/
def risingSignIndex (dayOfYear : Int) : Int :=
  jsMod (sunSignIndex dayOfYear + jsFloor ((dayOfYear : ℚ) / 15)) 12

/-- sun entry of the chart: the TS type declares `sign: string`, but the JS
lookup can yield undefined, so the model gives sign type Option String. -/
structure SunPlacement where
  sign : Option String
  degree : ℚ
  house : Int
deriving DecidableEq

/-- moon entry of the chart. -/
structure MoonPlacement where
  sign : Option String
  degree : ℚ
  house : Int
deriving DecidableEq

/-- rising entry of the chart. -/
structure RisingPlacement where
  sign : Option String
  degree : ℚ
deriving DecidableEq

/-- One element of the planets array of the chart. -/
structure PlanetPlacement where
  name : String
  sign : Option String
  degree : ℚ
  house : Int
  retrograde : Bool
deriving DecidableEq

/-- One element of the houses array of the chart. -/
structure HousePlacement where
  number : Int
  sign : Option String
  degree : ℚ
deriving DecidableEq

/-- One element of the aspects array of the chart. -/
structure ChartAspect where
  planet1 : String
  planet2 : String
  aspect : String
  degree : ℚ
  orb : ℚ
deriving DecidableEq

/-- The elements tally of the chart. -/
structure ChartElements where
  fire : Int
  earth : Int
  air : Int
  water : Int
deriving DecidableEq

/-- The modalities tally of the chart. -/
structure ChartModalities where
  cardinal : Int
  fixed : Int
  mutable : Int
deriving DecidableEq

/-- The AstrologyChart interface from astrologyService.ts lines 13-47. -/
structure AstrologyChart where
  sun : SunPlacement
  moon : MoonPlacement
  rising : RisingPlacement
  planets : List PlanetPlacement
  houses : List HousePlacement
  aspects : List ChartAspect
  elements : ChartElements
  modalities : ChartModalities
deriving DecidableEq

set_option linter.unusedVariables false in
/-- calculateAstrologyChart from astrologyService.ts lines 50-133.
`dayOfYear` is the value line 66 computes from bd.birthDate (Date parsing is
not embedded; the function reads nothing else of bd). `rng` gives the
successive Math.random() results, numbered in JS evaluation order of the
object literal: 0-1 sun, 2-3 moon, 4 rising, 5+3i/6+3i/7+3i for planet i,
29+i for house i, 41-44 elements, 45-47 modalities. -/
def calculateAstrologyChart (bd : BirthData) (dayOfYear : Int) (rng : Nat → ℚ) :
    AstrologyChart :=
  let s := sunSignIndex dayOfYear
  { sun := { sign := jsIndex signs (if s < 0 then s + 12 else s),
             degree := ((jsMod dayOfYear 30 : Int) : ℚ) + rng 0 * 5,
             house := jsFloor (rng 1 * 12) + 1 },
    moon := { sign := jsIndex signs (moonSignIndex dayOfYear),
              degree := rng 2 * 30,
              house := jsFloor (rng 3 * 12) + 1 },
    rising := { sign := jsIndex signs (risingSignIndex dayOfYear),
                degree := rng 4 * 30 },
    planets := planetNames.enum.map (fun p =>
      { name := p.2,
        sign := jsIndex signs (jsMod (s + p.1 + 1) 12),
        degree := rng (5 + 3 * p.1) * 30,
        house := jsFloor (rng (6 + 3 * p.1) * 12) + 1,
        retrograde := decide (rng (7 + 3 * p.1) < 1/5) }),
    houses := (List.range 12).map (fun i =>
      { number := ((i + 1 : Nat) : Int),
        sign := jsIndex signs (jsMod (risingSignIndex dayOfYear + i) 12),
        degree := rng (29 + i) * 30 }),
    aspects := [{ planet1 := "Sun", planet2 := "Moon", aspect := "Trine",
                  degree := 120, orb := 16/5 },
                { planet1 := "Venus", planet2 := "Mars", aspect := "Square",
                  degree := 90, orb := 21/10 }],
    elements := { fire := jsFloor (rng 41 * 5) + 1, earth := jsFloor (rng 42 * 5) + 1,
                  air := jsFloor (rng 43 * 5) + 1, water := jsFloor (rng 44 * 5) + 1 },
    modalities := { cardinal := jsFloor (rng 45 * 5) + 1, fixed := jsFloor (rng 46 * 5) + 1,
                    mutable := jsFloor (rng 47 * 5) + 1 } }

/-- A concrete BirthData input for evaluating the chart model. -/
def bd0 : BirthData :=
  { name := "Test", birthDate := "2024-01-01", birthTime := none,
    birthPlace := "Paris, France", latitude := 48, longitude := 2,
    timezone := none }

/-- A Math.random() draw sequence that always returns 0. -/
def rng0 : Nat → ℚ := fun _ => 0

/-- A Math.random() draw sequence that always returns one half. -/
def rngHalf : Nat → ℚ := fun _ => 1/2

/-! ## The time-entry keypad (components/DateTimePickers.tsx) -/

/-- JS parseInt on an all-digit string, over the char-list model of the
string: the base-10 value of the digits. -/
def digitsToNat (s : List Char) : Nat :=
  s.foldl (fun acc c => 10 * acc + (c.toNat - 48)) 0

/-- One digit-button press: handleNumberClick from DateTimePickers.tsx lines
265-284. The string state timeInput is modelled as a char list; the result is
the new timeInput and the argument onChange is invoked with, when it is
invoked. -/
def handleNumberClick (timeInput : List Char) (num : Char) :
    List Char × Option (List Char) :=
  if timeInput.length < 4 then
    let newInput := timeInput ++ [num]
    if newInput.length = 4 then
      let hours := newInput.take 2
      let minutes := newInput.drop 2
      let h := digitsToNat hours
      let m := digitsToNat minutes
      if 0 ≤ h ∧ h ≤ 23 ∧ 0 ≤ m ∧ m ≤ 59 then
        (newInput, some (hours ++ [':'] ++ minutes))
      else
        (newInput, none)
    else
      (newInput, none)
  else
    (timeInput, none)

/-- Folding a sequence of digit-button presses over handleNumberClick,
collecting the onChange invocations in order. -/
def pressAll (timeInput : List Char) : List Char → List Char × List (List Char)
  | [] => (timeInput, [])
  | c :: cs =>
    let r := handleNumberClick timeInput c
    let rest := pressAll r.1 cs
    (rest.1, r.2.toList ++ rest.2)

/-- The ten digit buttons of the keypad (DateTimePickers.tsx lines 368-387). -/
def digitButtons : List Char := ['0', '1', '2', '3', '4', '5', '6', '7', '8', '9']

/-! ## Backend-call wrappers (hooks/useAstroPsyche.ts, services/reportService.ts) -/

/-- A user profile row with the fields createUser builds (useAstroPsyche.ts
lines 63-78 and 89-102); timestamp strings are passed in as parameters where
the source calls new Date().toISOString(). created_at and updated_at are
optional because the authed insert payload leaves them to the database. -/
structure UserProfile where
  id : String
  full_name : String
  birth_date : String
  birth_time : Option String
  birth_place : String
  latitude : ℚ
  longitude : ℚ
  timezone : String
  consent_data_usage : Bool
  consent_ai_analysis : Bool
  profile_completed : Bool
  last_active : String
  created_at : Option String
  updated_at : Option String
deriving DecidableEq

/-- Outcome of supabase.auth.signInAnonymously(): an auth error (or a thrown
await) with its message, or a session whose user has this id. -/
inductive AuthOutcome where
  | failure (message : String)
  | success (userId : String)
deriving DecidableEq

/-- Outcome of an awaited supabase table call: the result object reports an
error with a code and message, the await itself throws, or a row comes
back. -/
inductive DbOutcome (α : Type) where
  | failure (code message : String)
  | thrown (message : String)
  | success (value : α)
deriving DecidableEq

/-- Modelled from the spec: handleAsyncError (services/stateManager.ts) is
not among the repository files; per the spec, errors are caught per call
site and surfaced as a human-readable string. It runs the wrapped action,
passes a returned value through, and turns a thrown error into a null
result with the message recorded in the error state. Result: (resolved
value, error state written). -/
def handleAsyncError {α : Type} (action : Except String α) :
    Option α × Option String :=
  match action with
  | .ok a => (some a, none)
  | .error e => (none, some e)

/-- What a createUser run leaves behind: the resolved value, the error state
written, and the localStorage write (key, profile) when one happened. -/
structure CreateUserOutcome where
  returned : Option UserProfile
  errorMessage : Option String
  localStored : Option (String × UserProfile)
deriving DecidableEq

/-- The async closure wrapped by handleAsyncError in createUser
(useAstroPsyche.ts lines 39-139). `auth`, `insert` and `astro` carry the
outcomes of the three awaited backend calls; `tempId` stands for the
Date.now()/Math.random() suffix of line 61 and `now` for
new Date().toISOString(). Returns the resolved profile together with the
localStorage write when one happened, or the thrown error. -/
def createUserBody (bd : BirthData) (auth : AuthOutcome)
    (insert : DbOutcome UserProfile) (astro : Except String Unit)
    (tempId now : String) :
    Except String (UserProfile × Option (String × UserProfile)) :=
  match auth with
  | .failure _ =>
    let userData : UserProfile :=
      { id := "temp-" ++ tempId, full_name := bd.name,
        birth_date := bd.birthDate, birth_time := bd.birthTime,
        birth_place := bd.birthPlace, latitude := bd.latitude,
        longitude := bd.longitude, timezone := bd.timezone.getD "UTC",
        consent_data_usage := true, consent_ai_analysis := true,
        profile_completed := false, last_active := now,
        created_at := some now, updated_at := some now }
    .ok (userData, some ("astropsyche_user", userData))
  | .success userId =>
    let userData : UserProfile :=
      { id := userId, full_name := bd.name, birth_date := bd.birthDate,
        birth_time := bd.birthTime, birth_place := bd.birthPlace,
        latitude := bd.latitude, longitude := bd.longitude,
        timezone := bd.timezone.getD "UTC", consent_data_usage := true,
        consent_ai_analysis := true, profile_completed := false,
        last_active := now, created_at := none, updated_at := none }
    match insert with
    | .success user =>
      match astro with
      | .ok _ => .ok (user, none)
      | .error _ =>
        let fallbackUser :=
          { userData with created_at := some now, updated_at := some now }
        .ok (fallbackUser, some ("astropsyche_user", fallbackUser))
    | .failure _ _ | .thrown _ =>
      let fallbackUser :=
        { userData with created_at := some now, updated_at := some now }
      .ok (fallbackUser, some ("astropsyche_user", fallbackUser))

/-- createUser from useAstroPsyche.ts lines 38-140: the closure above run
under handleAsyncError. -/
def createUser (bd : BirthData) (auth : AuthOutcome)
    (insert : DbOutcome UserProfile) (astro : Except String Unit)
    (tempId now : String) : CreateUserOutcome :=
  let r := handleAsyncError (createUserBody bd auth insert astro tempId now)
  { returned := Option.map Prod.fst r.1,
    errorMessage := r.2,
    localStored := Option.bind r.1 Prod.snd }

/-- An error object of a supabase result, with its PostgREST code. -/
structure SupaError where
  code : String
  message : String
deriving DecidableEq

/-- A row of the astrology_reports table (fields the claims never read are
elided). -/
structure AstroReportRow where
  id : String
  user_id : String
deriving DecidableEq

/-- The personality analysis aiService.generatePersonalityAnalysis resolves
with (fields the claims never read are elided). -/
structure AnalysisRow where
  archetypeName : String
deriving DecidableEq

/-- A row of the final_reports table (fields the claims never read are
elided). -/
structure FinalReportRow where
  id : String
  share_token : String
deriving DecidableEq

/-- getAstrologyReport from astrologyService.ts lines 183-197: `err` and
`data` carry the outcome of the select; an error whose code is not PGRST116
(no rows) is rethrown with a human-readable message, otherwise
`data || null` is returned. -/
def getAstrologyReport (err : Option SupaError) (data : Option AstroReportRow) :
    Except String (Option AstroReportRow) :=
  match err with
  | some e =>
    if e.code ≠ "PGRST116" then
      .error ("Failed to fetch astrology report: " ++ e.message)
    else .ok data
  | none => .ok data

/-- generateFinalReport from reportService.ts lines 6-78: fetch the newest
astrology report (throwing when none exists), generate the AI analysis,
then insert the final report row; a supabase insert error is rethrown with
a human-readable message, and the surrounding catch logs and rethrows.
`aiRes` carries the aiService call's outcome, `insertErr`/`insertRow` the
insert's. -/
def generateFinalReport (astroErr : Option SupaError)
    (astroData : Option AstroReportRow) (aiRes : Except String AnalysisRow)
    (insertErr : Option String) (insertRow : FinalReportRow) :
    Except String FinalReportRow :=
  match getAstrologyReport astroErr astroData with
  | .error e => .error e
  | .ok none => .error "Astrology report not found"
  | .ok (some _) =>
    match aiRes with
    | .error e => .error e
    | .ok _ =>
      match insertErr with
      | some m => .error ("Failed to save final report: " ++ m)
      | none => .ok insertRow

/-- generatePDF from reportService.ts lines 80-204: fetch the report row
(throwing 'Report not found' when the select errors or yields nothing),
render the PDF (pure jsPDF layout, not embedded; `pdfUrl` stands for the
createObjectURL result), then update the row with the URL; a failure of
that update is only logged (line 200) and the URL is returned regardless. -/
def generatePDF (fetchRes : Except String (Option FinalReportRow))
    (updateErr : Option String) (pdfUrl : String) : Except String String :=
  match fetchRes with
  | .error _ => .error "Report not found"
  | .ok none => .error "Report not found"
  | .ok (some _) =>
    match updateErr with
    | some _ => .ok pdfUrl
    | none => .ok pdfUrl

/-- The closure wrapped by handleAsyncError in updateUserProfile
(useAstroPsyche.ts lines 148-174). A user id starting 'temp-' is updated in
localStorage only; `merged` stands for the spread
`{...user, ...updates, updated_at}` (the spread itself is not embedded) and
`updateErr`/`updatedRow` carry the outcome of the users-table update. -/
def updateUserProfileBody (u : UserProfile) (merged : UserProfile)
    (updateErr : Option String) (updatedRow : UserProfile) :
    Except String (UserProfile × Option (String × UserProfile)) :=
  if u.id.take 5 = "temp-" then
    .ok (merged, some ("astropsyche_user", merged))
  else
    match updateErr with
    | some m => .error ("Failed to update profile: " ++ m)
    | none => .ok (updatedRow, none)

/-- The supabase branch of the hook's shareReport (useAstroPsyche.ts lines
214-226). -/
def shareReportQuery (updateErr : Option String) (shareToken origin : String) :
    Except String String :=
  match updateErr with
  | some m => .error ("Failed to update sharing settings: " ++ m)
  | none => .ok (origin ++ "/shared/" ++ shareToken)

/-- The closure wrapped by handleAsyncError in the hook's shareReport
(useAstroPsyche.ts lines 205-227): `user?.id.startsWith('temp-')` selects
the demo URL (`demoToken` stands for 'demo-' + Date.now()), otherwise the
final_reports row is updated; `origin` is window.location.origin. -/
def shareReport (user : Option UserProfile) (updateErr : Option String)
    (shareToken demoToken origin : String) : Except String String :=
  match user with
  | some u =>
    if u.id.take 5 = "temp-" then .ok (origin ++ "/shared/" ++ demoToken)
    else shareReportQuery updateErr shareToken origin
  | none => shareReportQuery updateErr shareToken origin

/-- The closure wrapped by handleAsyncError in getUserReports
(useAstroPsyche.ts lines 233-251), reached when a user is logged in.
`stored` is the parsed localStorage value, `queryErr`/`rows` the outcome of
the select. -/
def getUserReportsBody (u : UserProfile) (stored : Option (List FinalReportRow))
    (queryErr : Option String) (rows : Option (List FinalReportRow)) :
    Except String (List FinalReportRow) :=
  if u.id.take 5 = "temp-" then
    .ok (stored.getD [])
  else
    match queryErr with
    | some m => .error ("Failed to fetch reports: " ++ m)
    | none => .ok (rows.getD [])

/-- The two backend operations generateReport awaits, in issue order. -/
inductive BackendCall where
  | finalReport
  | profileUpdate
deriving DecidableEq

/-- What a generateReport run leaves behind. -/
structure GenerateReportOutcome where
  returned : Option FinalReportRow
  errorMessage : Option String
  calls : List BackendCall
  storedReport : Option FinalReportRow
deriving DecidableEq

/-- The closure wrapped by handleAsyncError in generateReport
(useAstroPsyche.ts lines 183-194): await generateFinalReport, store the
report with setCurrentReport, then await
updateUserProfile({profile_completed: true}); a throw aborts the remainder.
Returns the Except value together with the calls issued (in order) and the
report stored. -/
def generateReportBody (finalRes : Except String FinalReportRow)
    (updateRes : Except String UserProfile) :
    Except String FinalReportRow × List BackendCall × Option FinalReportRow :=
  match finalRes with
  | .error e => (.error e, [.finalReport], none)
  | .ok report =>
    match updateRes with
    | .error e => (.error e, [.finalReport, .profileUpdate], some report)
    | .ok _ => (.ok report, [.finalReport, .profileUpdate], some report)

/-- generateReport from useAstroPsyche.ts lines 177-195: the guard
`if (!user) { setError('No user logged in'); return null }`, then the
closure above under handleAsyncError. -/
def generateReport (user : Option UserProfile)
    (finalRes : Except String FinalReportRow)
    (updateRes : Except String UserProfile) : GenerateReportOutcome :=
  match user with
  | none =>
    { returned := none, errorMessage := some "No user logged in",
      calls := [], storedReport := none }
  | some _ =>
    let body := generateReportBody finalRes updateRes
    let r := handleAsyncError body.1
    { returned := r.1, errorMessage := r.2, calls := body.2.1,
      storedReport := body.2.2 }

/-- A concrete final-report row. -/
def rpt0 : FinalReportRow := { id := "report-1", share_token := "tok-1" }

/-! ## Theorems -/

/-- Every lookup in the camera sequence, defaulted to -1, lands in the value
set of the list together with the default. -/
theorem planetSequence_getD_mem (i : Nat) :
    planetSequence.getD i (-1) ∈ ([-1, 0, 1, 2, 3, 4] : List Int) := by
  match i with
  | 0 | 1 | 2 | 3 | 4 | 5 | 6 | 7 | 8 => decide
  | n + 9 =>
    have h : planetSequence.length ≤ n + 9 := by simp [planetSequence]
    simp [List.getD, List.getElem?_eq_none h]

/-- C3: the background camera target is planetSequence[1 + formStep] when
appStep = 1, planetSequence[4 + appStep] when appStep > 1 and
planetSequence[appStep] when appStep = 0, over the fixed 9-element list
[-1, 0, 1, 2, 3, 4, 0, 1, 2], out-of-range lookups defaulting to -1; the
selected index is always one of -1, 0, 1, 2, 3, 4. -/
theorem cameraTargetIndex_lookup (appStep formStep : Nat) :
    planetSequence = [-1, 0, 1, 2, 3, 4, 0, 1, 2] ∧
    planetSequence.length = 9 ∧
    (appStep = 1 → cameraTargetIndex appStep formStep = planetSequence.getD (1 + formStep) (-1)) ∧
    (appStep > 1 → cameraTargetIndex appStep formStep = planetSequence.getD (4 + appStep) (-1)) ∧
    (appStep = 0 → cameraTargetIndex appStep formStep = planetSequence.getD appStep (-1)) ∧
    cameraTargetIndex appStep formStep ∈ ([-1, 0, 1, 2, 3, 4] : List Int) := by
  refine ⟨rfl, rfl, ?_, ?_, ?_, ?_⟩
  · intro h; simp [cameraTargetIndex, h]
  · intro h
    have h1 : ¬ appStep = 1 := by omega
    have h2 : 5 + appStep - 1 = 4 + appStep := by omega
    simp [cameraTargetIndex, h, h1, h2]
  · intro h; simp [cameraTargetIndex, h]
  · unfold cameraTargetIndex
    split
    · exact planetSequence_getD_mem _
    · split
      · exact planetSequence_getD_mem _
      · exact planetSequence_getD_mem _

/-- C10: checkSupabaseConnection returns a boolean for every probe outcome:
true exactly when the probe completed without reporting an error, false both
when it reported an error and when it threw. -/
theorem checkSupabaseConnection_total (o : ProbeOutcome) :
    (checkSupabaseConnection o = true ↔ o = ProbeOutcome.completed none) ∧
    (∀ e, o = ProbeOutcome.completed (some e) → checkSupabaseConnection o = false) ∧
    (o = ProbeOutcome.thrown → checkSupabaseConnection o = false) := by
  rcases o with _ | err
  · simp [checkSupabaseConnection]
  · rcases err with _ | e <;> simp [checkSupabaseConnection]

/-- C9 fails on the code: at the boundary case where the birth month equals
the current month but the birth day has not yet been reached (born
2020-10-15, evaluated on 2026-10-11, i.e. JS month index 9 in both dates),
calculateAge yields (5, 12): the months component is 12, outside 0..11. -/
theorem calculateAge_months_out_of_range :
    calculateAge ⟨2020, 9, 15⟩ ⟨2026, 9, 11⟩ = (5, 12) ∧
    ¬ (calculateAge ⟨2020, 9, 15⟩ ⟨2026, 9, 11⟩).2 ≤ 11 := by
  decide

/-- C6: the age-display step schedules its auto-advance exactly on form step
3, with the fixed 2500 ms delay, advancing to form step 4; and handleSubmit
raises the loading flag and schedules a single fixed 3000 ms delay after
which the app step advances by one (form step resetting to 0). -/
theorem fixed_animation_delays (formStep appStep : Nat) :
    (formStep = 3 → ageStepTimer formStep = some (2500, 4)) ∧
    (formStep ≠ 3 → ageStepTimer formStep = none) ∧
    (handleSubmit appStep).loading = true ∧
    (handleSubmit appStep).delay = 3000 ∧
    (handleSubmit appStep).nextAppStep = appStep + 1 ∧
    (handleSubmit appStep).nextFormStep = 0 := by
  refine ⟨?_, ?_, rfl, rfl, rfl, rfl⟩
  · intro h; simp [ageStepTimer, h]
  · intro h; simp [ageStepTimer, h]

/-- C8 fails on the code: for a January 1 birth (dayOfYear = 1) the
uncorrected sunSignIndex is -3, so the moon and rising lookups index
signs[-3], which is undefined in JS; only the sun lookup corrects the
negative index. -/
theorem chart_sign_lookup_out_of_range :
    sunSignIndex 1 = -3 ∧ moonSignIndex 1 = -3 ∧ risingSignIndex 1 = -3 ∧
    (calculateAstrologyChart bd0 1 rng0).moon.sign = none ∧
    (calculateAstrologyChart bd0 1 rng0).rising.sign = none ∧
    (calculateAstrologyChart bd0 1 rng0).sun.sign = some "Capricorn" := by
  have hsun : sunSignIndex 1 = -3 := by
    have h : (⌊(((1 : Int) : ℚ) - 80) / (152 / 5)⌋ : Int) = -3 := by norm_num
    simp only [sunSignIndex, jsFloor, h]
    decide
  have hmoon : moonSignIndex 1 = -3 := by
    have h : (⌊((1 : Int) : ℚ) / (5 / 2)⌋ : Int) = 0 := by norm_num
    simp only [moonSignIndex, jsFloor, hsun, h]
    decide
  have hrise : risingSignIndex 1 = -3 := by
    have h : (⌊((1 : Int) : ℚ) / 15⌋ : Int) = 0 := by norm_num
    simp only [risingSignIndex, jsFloor, hsun, h]
    decide
  refine ⟨hsun, hmoon, hrise, ?_, ?_, ?_⟩ <;>
    simp only [calculateAstrologyChart, hsun, hmoon, hrise] <;> decide

/-- C5: the chart is not a function of the birth data alone: two runs on the
same BirthData (and the same derived dayOfYear) whose Math.random() draws
differ return different charts, already in the sun degree. -/
theorem chart_not_deterministic :
    calculateAstrologyChart bd0 100 rng0 ≠ calculateAstrologyChart bd0 100 rngHalf := by
  intro h
  have hd := congrArg (fun c => c.sun.degree) h
  simp only [calculateAstrologyChart, rng0, rngHalf] at hd
  norm_num at hd

/-- Once timeInput holds 4 characters, every further press is ignored and
emits nothing. -/
theorem pressAll_full (s : List Char) (hs : s.length = 4) (cs : List Char) :
    pressAll s cs = (s, []) := by
  induction cs with
  | nil => rfl
  | cons c cs ih =>
    have h1 : handleNumberClick s c = (s, none) := by
      simp [handleNumberClick, hs]
    simp [pressAll, h1, ih]

/-- C2: starting from an empty timeInput, any sequence of digit-button
presses accumulates at most 4 digits (presses beyond 4 are ignored), and
onChange is invoked exactly once, when the fourth press completes an input
HHMM with 0 ≤ HH ≤ 23 and 0 ≤ MM ≤ 59, receiving the chars of HH:MM; a
4-digit input outside those ranges never invokes onChange. -/
theorem keypad_four_digit_format (presses : List Char)
    (_hd : ∀ c ∈ presses, c ∈ digitButtons) :
    (pressAll [] presses).1.length ≤ 4 ∧
    (pressAll [] presses).2 =
      (if 4 ≤ presses.length then
        (let hours := (presses.take 4).take 2
         let minutes := (presses.take 4).drop 2
         if 0 ≤ digitsToNat hours ∧ digitsToNat hours ≤ 23 ∧
            0 ≤ digitsToNat minutes ∧ digitsToNat minutes ≤ 59 then
           [hours ++ [':'] ++ minutes]
         else [])
       else []) := by
  rcases presses with _ | ⟨a, _ | ⟨b, _ | ⟨c, _ | ⟨d, rest⟩⟩⟩⟩
  · exact ⟨by simp [pressAll], by simp [pressAll]⟩
  · exact ⟨by simp [pressAll, handleNumberClick], by simp [pressAll, handleNumberClick]⟩
  · exact ⟨by simp [pressAll, handleNumberClick], by simp [pressAll, handleNumberClick]⟩
  · exact ⟨by simp [pressAll, handleNumberClick], by simp [pressAll, handleNumberClick]⟩
  · have h1 : handleNumberClick [] a = ([a], none) := by simp [handleNumberClick]
    have h2 : handleNumberClick [a] b = ([a, b], none) := by simp [handleNumberClick]
    have h3 : handleNumberClick [a, b] c = ([a, b, c], none) := by simp [handleNumberClick]
    have hlen : 4 ≤ (a :: b :: c :: d :: rest).length := by simp
    have htake : (a :: b :: c :: d :: rest).take 4 = [a, b, c, d] := by simp
    by_cases hv : 0 ≤ digitsToNat [a, b] ∧ digitsToNat [a, b] ≤ 23 ∧
        0 ≤ digitsToNat [c, d] ∧ digitsToNat [c, d] ≤ 59
    · have h4 : handleNumberClick [a, b, c] d =
          ([a, b, c, d], some ([a, b] ++ [':'] ++ [c, d])) := by
        simp [handleNumberClick, hv]
      have hrun : pressAll [] (a :: b :: c :: d :: rest) =
          ([a, b, c, d], [[a, b] ++ [':'] ++ [c, d]]) := by
        simp [pressAll, h1, h2, h3, h4, pressAll_full [a, b, c, d] rfl rest]
      rw [hrun, if_pos hlen, htake]
      exact ⟨by simp, by simp [hv]⟩
    · have h4 : handleNumberClick [a, b, c] d = ([a, b, c, d], none) := by
        simp only [handleNumberClick]
        rw [if_pos (by simp), if_pos (by simp)]
        simp only [List.cons_append, List.nil_append, List.take_succ_cons,
          List.take_zero, List.drop_succ_cons, List.drop_zero]
        rw [if_neg hv]
      have hrun : pressAll [] (a :: b :: c :: d :: rest) = ([a, b, c, d], []) := by
        simp [pressAll, h1, h2, h3, h4, pressAll_full [a, b, c, d] rfl rest]
      refine ⟨by simp [hrun], ?_⟩
      rw [hrun, if_pos hlen, htake]
      simp only [List.take_succ_cons, List.take_zero, List.drop_succ_cons,
        List.drop_zero]
      rw [if_neg hv]

/-- Witness for C2 at the presses 0, 9, 3, 0, 5: the fifth press is ignored,
the state stays 09 30 and onChange received the chars of 09:30. -/
theorem keypad_four_digit_format_witness :
    (pressAll [] ['0', '9', '3', '0', '5']).1.length ≤ 4 ∧
    (pressAll [] ['0', '9', '3', '0', '5']).2 =
      (if 4 ≤ (['0', '9', '3', '0', '5'] : List Char).length then
        (let hours := ((['0', '9', '3', '0', '5'] : List Char).take 4).take 2
         let minutes := ((['0', '9', '3', '0', '5'] : List Char).take 4).drop 2
         if 0 ≤ digitsToNat hours ∧ digitsToNat hours ≤ 23 ∧
            0 ≤ digitsToNat minutes ∧ digitsToNat minutes ≤ 59 then
           [hours ++ [':'] ++ minutes]
         else [])
       else []) :=
  keypad_four_digit_format ['0', '9', '3', '0', '5'] (by decide)

/-- C1: createUser degrades to local storage instead of failing. When
anonymous auth fails it resolves with a profile whose id is 'temp-' plus
the generated suffix, written to localStorage under 'astropsyche_user', and
sets no error; when auth succeeds but the users insert reports an error or
throws, or the astrology-report generation throws, it resolves with the
profile written to the same key; a profile is returned on every backend
failure path. -/
theorem createUser_degrades_to_local_storage (bd : BirthData) (tempId now : String) :
    (∀ msg insert astro,
      (createUser bd (.failure msg) insert astro tempId now).errorMessage = none ∧
      ∃ u, (createUser bd (.failure msg) insert astro tempId now).returned = some u ∧
        u.id = "temp-" ++ tempId ∧
        (createUser bd (.failure msg) insert astro tempId now).localStored =
          some ("astropsyche_user", u)) ∧
    (∀ userId code emsg astro,
      (createUser bd (.success userId) (.failure code emsg) astro tempId now).errorMessage
          = none ∧
      ∃ u, (createUser bd (.success userId) (.failure code emsg) astro tempId now).returned
          = some u ∧
        (createUser bd (.success userId) (.failure code emsg) astro tempId now).localStored
          = some ("astropsyche_user", u)) ∧
    (∀ userId emsg astro,
      (createUser bd (.success userId) (.thrown emsg) astro tempId now).errorMessage
          = none ∧
      ∃ u, (createUser bd (.success userId) (.thrown emsg) astro tempId now).returned
          = some u ∧
        (createUser bd (.success userId) (.thrown emsg) astro tempId now).localStored
          = some ("astropsyche_user", u)) ∧
    (∀ userId row aerr,
      (createUser bd (.success userId) (.success row) (.error aerr) tempId now).errorMessage
          = none ∧
      ∃ u, (createUser bd (.success userId) (.success row) (.error aerr) tempId now).returned
          = some u ∧
        (createUser bd (.success userId) (.success row) (.error aerr) tempId now).localStored
          = some ("astropsyche_user", u)) := by
  refine ⟨?_, ?_, ?_, ?_⟩
  · intro msg insert astro
    exact ⟨rfl, _, rfl, rfl, rfl⟩
  · intro userId code emsg astro
    exact ⟨rfl, _, rfl, rfl⟩
  · intro userId emsg astro
    exact ⟨rfl, _, rfl, rfl⟩
  · intro userId row aerr
    exact ⟨rfl, _, rfl, rfl⟩

/-- C7: generateReport awaits its backend calls sequentially in a fixed
order: the final report is created and stored first, and the
profile-completed update is issued only after that creation succeeds; if
creation fails the update is never issued; with no user logged in, no
backend call is made, the result is null and the error state is
'No user logged in'. -/
theorem generateReport_sequential_order (u : UserProfile)
    (finalRes : Except String FinalReportRow)
    (updateRes : Except String UserProfile) :
    ((generateReport none finalRes updateRes).calls = [] ∧
     (generateReport none finalRes updateRes).returned = none ∧
     (generateReport none finalRes updateRes).errorMessage =
       some "No user logged in") ∧
    (∀ e, finalRes = .error e →
      (generateReport (some u) finalRes updateRes).calls = [.finalReport] ∧
      (generateReport (some u) finalRes updateRes).storedReport = none) ∧
    (∀ r, finalRes = .ok r →
      (generateReport (some u) finalRes updateRes).calls =
        [.finalReport, .profileUpdate] ∧
      (generateReport (some u) finalRes updateRes).storedReport = some r ∧
      (updateRes.isOk →
        (generateReport (some u) finalRes updateRes).returned = some r)) := by
  refine ⟨⟨rfl, rfl, rfl⟩, ?_, ?_⟩
  · rintro e rfl
    exact ⟨rfl, rfl⟩
  · rintro r rfl
    rcases updateRes with e | w
    · exact ⟨rfl, rfl, fun h => by simp [Except.isOk, Except.toBool] at h⟩
    · exact ⟨rfl, rfl, fun _ => rfl⟩

/-- C4 counterexample: when the report fetch succeeds but the pdf_url
bookkeeping update fails, generatePDF still resolves successfully with the
URL: the backend failure is logged to the console only and never surfaced
as a thrown error or an error state. -/
theorem generatePDF_swallows_update_failure :
    generatePDF (.ok (some rpt0)) (some "permission denied") "blob:pdf" =
      .ok "blob:pdf" ∧
    ¬ ∃ e, generatePDF (.ok (some rpt0)) (some "permission denied") "blob:pdf" =
      .error e := by
  refine ⟨rfl, ?_⟩
  rintro ⟨e, h⟩
  simp [generatePDF] at h

/-- C4 amended: backend failures are surfaced as human-readable messages by
updateUserProfile, generateFinalReport (astrology fetch, missing report, AI
analysis and insert paths), generatePDF's report fetch, shareReport and
getUserReports, with two exceptions: generatePDF ignores a failure of its
final pdf_url bookkeeping update and still resolves with the URL, and
createUser degrades auth and database failures to the localStorage fallback
(the behaviour C1 establishes). -/
theorem backend_failures_surfaced :
    (∀ u merged updatedRow m, u.id.take 5 ≠ "temp-" →
      updateUserProfileBody u merged (some m) updatedRow =
        .error ("Failed to update profile: " ++ m)) ∧
    (∀ e data ai insErr insRow, e.code ≠ "PGRST116" →
      generateFinalReport (some e) data ai insErr insRow =
        .error ("Failed to fetch astrology report: " ++ e.message)) ∧
    (∀ ai insErr insRow,
      generateFinalReport none none ai insErr insRow =
        .error "Astrology report not found") ∧
    (∀ row m insErr insRow,
      generateFinalReport none (some row) (.error m) insErr insRow = .error m) ∧
    (∀ row a m insRow,
      generateFinalReport none (some row) (.ok a) (some m) insRow =
        .error ("Failed to save final report: " ++ m)) ∧
    (∀ m upd url, generatePDF (.error m) upd url = .error "Report not found") ∧
    (∀ upd url, generatePDF (.ok none) upd url = .error "Report not found") ∧
    (∀ r m url, generatePDF (.ok (some r)) (some m) url = .ok url) ∧
    (∀ u tok demo origin m, u.id.take 5 ≠ "temp-" →
      shareReport (some u) (some m) tok demo origin =
        .error ("Failed to update sharing settings: " ++ m)) ∧
    (∀ tok demo origin m,
      shareReport none (some m) tok demo origin =
        .error ("Failed to update sharing settings: " ++ m)) ∧
    (∀ u stored rows m, u.id.take 5 ≠ "temp-" →
      getUserReportsBody u stored (some m) rows =
        .error ("Failed to fetch reports: " ++ m)) := by
  refine ⟨?_, ?_, ?_, ?_, ?_, ?_, ?_, ?_, ?_, ?_, ?_⟩
  · intro u merged updatedRow m h
    simp [updateUserProfileBody, h]
  · intro e data ai insErr insRow h
    simp [generateFinalReport, getAstrologyReport, h]
  · intro ai insErr insRow
    rfl
  · intro row m insErr insRow
    rfl
  · intro row a m insRow
    rfl
  · intro m upd url
    rfl
  · intro upd url
    rfl
  · intro r m url
    rfl
  · intro u tok demo origin m h
    simp [shareReport, shareReportQuery, h]
  · intro tok demo origin m
    rfl
  · intro u stored rows m h
    simp [getUserReportsBody, h]
